import Mathlib

/-!
A shallow embedding of the entry generation-and-validation pipeline of the
german_tutor_bot repository (src/text_normalizer.py, src/validator.py,
src/validation_prompt_manager.py, src/data_structures.py,
src/data_generator.py), together with theorems settling the claims about it.

Python strings are modelled as Lean `String` (a wrapper around `List Char`);
Python's `str` operations used by the code (strip, rstrip, lower, split,
replace, substring test, the two regexes of TextNormalizer) are translated
explicitly below.  Machine floats appear only in the backoff-delay
computation; delays and jitter draws are modelled as rationals.
-/

namespace GermanTutor

/-- Python's ASCII whitespace set, as matched by `str.strip`, `str.rstrip`
and the regex class used in text_normalizer.py on the inputs arising here. -/
def isPySpace (c : Char) : Bool :=
  c = ' ' || c = '\t' || c = '\n' || c = '\r' || c = '\x0b' || c = '\x0c'

/-- Python `s.strip()` on the underlying character list. -/
def pyStripList (l : List Char) : List Char :=
  ((l.dropWhile isPySpace).reverse.dropWhile isPySpace).reverse

/-- Python `s.rstrip()` on the underlying character list. -/
def pyRstripList (l : List Char) : List Char :=
  (l.reverse.dropWhile isPySpace).reverse

/-- Python `s.rstrip()`. -/
def pyRstrip (s : String) : String :=
  ⟨pyRstripList s.data⟩

/-- The effect of `re.sub(r"\s+", " ", s)`: every maximal run of whitespace
characters is replaced by a single space. -/
def collapseWs : List Char → List Char
  | [] => []
  | [c] => if isPySpace c then [' '] else [c]
  | a :: b :: rest =>
      if isPySpace a && isPySpace b then collapseWs (b :: rest)
      else (if isPySpace a then ' ' else a) :: collapseWs (b :: rest)

/-- Python `s.lower()` restricted to the ASCII case mapping (the inputs in
this repository contain no non-ASCII uppercase letters). -/
def pyLower (l : List Char) : List Char :=
  l.map Char.toLower

/-- Python `s.lower()` on strings. -/
def strLower (s : String) : String :=
  ⟨pyLower s.data⟩

/-- Python `needle in hay` on strings: contiguous-substring test. -/
def pyInStr (needle hay : String) : Bool :=
  decide (needle.data <:+: hay.data)

/-- Python `s.startswith(pre)`. -/
def pyStartsWith (s pre : String) : Bool :=
  pre.data.isPrefixOf s.data

/-- Python `s.split(sep)` for a one-character separator: keeps empty pieces,
`"".split(",") == [""]`. -/
def pySplit (sep : Char) : List Char → List (List Char)
  | [] => [[]]
  | c :: rest =>
      let r := pySplit sep rest
      if c = sep then [] :: r
      else
        match r with
        | t :: ts => (c :: t) :: ts
        | [] => [[c]]

/-! ## TextNormalizer (src/text_normalizer.py) -/

/-- `TextNormalizer.norm_basic`: `s.strip()` then `re.sub(r"\s+", " ", s)`. -/
def norm_basic (s : String) : String :=
  ⟨collapseWs (pyStripList s.data)⟩

/-- `TextNormalizer.norm_de_word`: `norm_basic` then `w.replace("|", "")`. -/
def norm_de_word (w : String) : String :=
  ⟨(norm_basic w).data.filter (fun c => c ≠ '|')⟩

/-- The effect of `re.sub(r"^sich\s+", "", v, flags=re.IGNORECASE)`: remove a
leading case-insensitive `sich` followed by at least one whitespace char. -/
def stripSich (l : List Char) : List Char :=
  match l with
  | s :: i :: c :: h :: rest =>
      if s.toLower = 's' && i.toLower = 'i' && c.toLower = 'c' && h.toLower = 'h'
          && (match rest with
              | r :: _ => isPySpace r
              | [] => false) then
        rest.dropWhile isPySpace
      else l
  | _ => l

/-- `TextNormalizer.norm_de_reflexive_verb`. -/
def norm_de_reflexive_verb (v : String) : String :=
  ⟨stripSich (norm_de_word v).data⟩

/-- The match of `re.match(r"^<([^>]+)>(.+)$", s)` on a newline-free string
(`norm_basic` output never contains a newline): a leading `<`, a nonempty
article part up to the first `>`, and a nonempty remainder. -/
def parseArticleForm (l : List Char) : Option (List Char × List Char) :=
  match l with
  | '<' :: rest =>
      let art := rest.takeWhile (fun c => c ≠ '>')
      match rest.dropWhile (fun c => c ≠ '>') with
      | '>' :: noun => if art.isEmpty || noun.isEmpty then none else some (art, noun)
      | _ => none
  | _ => none

/-- `TextNormalizer.norm_article_form`: `norm_basic`, then on a
`<article>Noun` match re-emit `<article.strip().lower()>noun.strip().lower()`,
otherwise lower-case the whole string. -/
def norm_article_form (s : String) : String :=
  let b := norm_basic s
  match parseArticleForm b.data with
  | some (art, noun) =>
      ⟨'<' :: pyLower (pyStripList art) ++ '>' :: pyLower (pyStripList noun)⟩
  | none => strLower b

/-! ## ValidationPrompt (src/data_structures.py) and
ValidationPromptManager (src/validation_prompt_manager.py) -/

/-- The request descriptor built by `ValidationPrompt.__init__`. -/
structure ValidationPrompt where
  general_task : String
  specific_task : String
  rules : List String
  input_data : String
  input_data_prefix : String
deriving Repr, DecidableEq

/-- `ValidationPrompt.format_prompt`. -/
def ValidationPrompt.format_prompt : ValidationPrompt → String
  | ⟨g, sp, rules, inp, label⟩ =>
      let rules_formatted := String.intercalate ("\n") (rules.map (fun rule => "- " ++ rule))
      "Task: " ++ g ++ "\n" ++ sp ++ "\n" ++ "Rules:\n" ++ rules_formatted
        ++ "\n" ++ "\n" ++ label ++ ": " ++ inp ++ "\n"

/-- `ValidationPromptManager.task` (set in `__init__`). -/
def vpmTask : String :=
  "You are validating a German vocabulary database.\n"

/-- `ValidationPromptManager.get_validation_prompt_for_definition`. -/
def get_validation_prompt_for_definition (definition_de : String) (top_k : Nat) :
    ValidationPrompt where
  general_task := vpmTask
  specific_task :=
    "Given a dictionary-style German definition, return the most likely "
      ++ toString top_k ++ " lemma entries."
  rules :=
    ["Candidates must be single German lemmas (or fixed expressions if needed).",
     "Do not include explanations.",
     "If multiple senses exist, prefer the most common B2-level lemma."]
  input_data := definition_de
  input_data_prefix := "Definition (German)"

/-- `ValidationPromptManager.get_validation_prompt_for_antonyms`. -/
def get_validation_prompt_for_antonyms (word_de : String) (top_k : Nat) :
    ValidationPrompt where
  general_task := vpmTask
  specific_task :=
    "Return exactly " ++ toString top_k
      ++ " German antonyms for the given lemma (or fixed expression)."
  rules :=
    ["Antonyms must be plausible in common usage.",
     "If antonym is genuinely unclear, include an empty string \"\" in that slot."]
  input_data := word_de
  input_data_prefix := "Word"

/-- `ValidationPromptManager.get_validation_prompt_for_translations`. -/
def get_validation_prompt_for_translations (word_de : String) (top_k : Nat) :
    ValidationPrompt where
  general_task := vpmTask
  specific_task :=
    "Return exactly " ++ toString top_k
      ++ " concise English translations for the German entry."
  rules :=
    ["Each candidate should be a short translation phrase.",
     "Prefer comma-free candidates.",
     "do not include the word \'to\' before verbs."]
  input_data := word_de
  input_data_prefix := "Word"

/-- `ValidationPromptManager.get_validation_prompt_for_noun_form`.  The
source's parameter is literally named `example_sentence`; it becomes the
prompt's input payload, labelled `Verb`. -/
def get_validation_prompt_for_noun_form (example_sentence : String) (top_k : Nat) :
    ValidationPrompt where
  general_task := vpmTask
  specific_task :=
    "Given a German verb lemma, return exactly " ++ toString top_k
      ++ " candidates, which are likely nominalizations INCLUDING article"
  rules :=
    ["Candidates must be single German lemmas (or fixed expressions if needed).",
     "Do not include explanations.",
     "Format each candidate strictly as <article>Nominalization, e.g. <die>Arbeit.\n"]
  input_data := example_sentence
  input_data_prefix := "Verb"

/-! ## Validator (src/validator.py)

`Validator.validate_entry` receives the entry as a Python dict loaded from
JSON.  For the fields it touches, a key can be missing from the dict, be
JSON `null`, or hold a string; `entry[k]` raises `KeyError` exactly when the
key is missing, while `entry.get(k)` yields `None` for a missing key.  The
model caller is injected as a pure function from the formatted prompt text
to the candidate list it returns; the second component of the result is the
ordered list of prompt texts actually sent to the model. -/

deriving instance DecidableEq for Except

/-- The Python exceptions that the embedded code paths can raise. -/
inductive PyErr where
  | keyError
  | attributeError
  | assertionError
  | runtimeError
deriving Repr, DecidableEq

/-- One field slot of the input dict: missing key, JSON null, or a string. -/
inductive JField where
  | absent
  | null
  | str (s : String)
deriving Repr, DecidableEq

/-- `entry[k]`: `KeyError` on a missing key, otherwise the value
(`none` = JSON null). -/
def JField.getItem : JField → Except PyErr (Option String)
  | .absent => .error .keyError
  | .null => .ok none
  | .str s => .ok (some s)

/-- `entry.get(k)`: `None` for a missing key. -/
def JField.get : JField → Option String
  | .absent => none
  | .null => none
  | .str s => some s

/-- Python truthiness of `entry.get(k)`: a non-empty string. -/
def JField.truthy : JField → Bool
  | .str s => decide (s ≠ "")
  | _ => false

/-- Interpolating a possibly-`None` value into an f-string. -/
def jFStr : Option String → String
  | none => "None"
  | some s => s

/-- `TextNormalizer.norm_de_word` applied to a value that may be `None`:
`None.strip()` raises `AttributeError`. -/
def normWordArg : Option String → Except PyErr String
  | some s => .ok s
  | none => .error .attributeError

/-- The dict fields `Validator.validate_entry` reads. -/
structure VEntry where
  word : JField
  explanation_de : JField
  translation_en : JField
  example_sentence : JField
  opposite : JField
  noun_form : JField
deriving Repr, DecidableEq

/-- One element of the list returned by `validate_entry`:
`{"field": ..., "pass": ..., "candidates": ...}`. -/
structure ReportItem where
  field : String
  pass : Bool
  candidates : List String
deriving Repr, DecidableEq

/-- `Validator.is_in_candidates`: membership of the normalized, lower-cased
word in the set of normalized, lower-cased candidates. -/
def is_in_candidates (word : String) (candidates : List String) : Bool :=
  let w := strLower (norm_de_word word)
  candidates.any (fun c => strLower (norm_de_word c) = w)

/-- `Validator.is_in_candidates_article_form`. -/
def is_in_candidates_article_form (noun_form : String) (candidates : List String) : Bool :=
  let w := norm_article_form noun_form
  candidates.any (fun c => norm_article_form c = w)

/-- The pass judgment of the `translation_en` branch of `validate_entry`:
split the stored value on commas, strip and lower-case each token, strip and
lower-case each candidate, pass iff some stored token is among them. -/
def translation_pass (stored : String) (candidates : List String) : Bool :=
  let storedToks := (pySplit ',' stored.data).map (fun t => pyLower (pyStripList t))
  let cand := candidates.map (fun c => pyLower (pyStripList c.data))
  storedToks.any (fun tok => cand.contains tok)

/-- A branch outcome of `validate_entry`: the report items it appends (or the
exception it raises) together with the prompt texts it sent to the model. -/
abbrev VStep := Except PyErr (List ReportItem) × List String

/-- Sequencing of `validate_entry` branches: a raised exception aborts the
entry, keeping the calls already made. -/
def seqStep (acc step : VStep) : VStep :=
  match acc with
  | (.error e, tr) => (.error e, tr)
  | (.ok rs, tr) =>
      match step with
      | (.ok rs2, tr2) => (.ok (rs ++ rs2), tr ++ tr2)
      | (.error e, tr2) => (.error e, tr ++ tr2)

/-- Branch 1 of `validate_entry` (`explanation_de`): the prompt text was
already built before the guard; on a truthy field, call the model, then test
the stored word (an `AttributeError` if `entry.get("word")` was `None`). -/
def vStepExplanation (caller : String → List String) (entry : VEntry)
    (input_text : String) : VStep :=
  if entry.explanation_de.truthy then
    let data := caller input_text
    match normWordArg entry.word.get with
    | .error e => (.error e, [input_text])
    | .ok w => (.ok [⟨"explanation_de", is_in_candidates w data, data⟩], [input_text])
  else (.ok [], [])

/-- Branch 2 of `validate_entry` (`translation_en`). -/
def vStepTranslation (top_k : Nat) (caller : String → List String)
    (entry : VEntry) : VStep :=
  match entry.translation_en with
  | .str s =>
      if s ≠ "" then
        let it := (get_validation_prompt_for_translations (jFStr entry.word.get)
          top_k).format_prompt
        let data := caller it
        (.ok [⟨"translation_en", translation_pass s data, data⟩], [it])
      else (.ok [], [])
  | _ => (.ok [], [])

/-- Branch 3 of `validate_entry` (`example_sentence`): the body sets
`ok = True` and the rest of the branch is under `if False:` — dead code, so
nothing is appended to the report and no call is made. -/
def vStepExample (entry : VEntry) : VStep :=
  if entry.example_sentence.truthy then (.ok [], []) else (.ok [], [])

/-- Branch 4 of `validate_entry` (`opposite`). -/
def vStepOpposite (top_k : Nat) (caller : String → List String)
    (entry : VEntry) : VStep :=
  match entry.opposite with
  | .str o =>
      if o ≠ "" then
        let it := (get_validation_prompt_for_antonyms (jFStr entry.word.get)
          top_k).format_prompt
        let data := caller it
        (.ok [⟨"opposite", is_in_candidates o data, data⟩], [it])
      else (.ok [], [])
  | _ => (.ok [], [])

/-- Branch 5 of `validate_entry` (`noun_form`): the prompt is built from
`entry["example_sentence"]` (a `KeyError` if that key is missing). -/
def vStepNounForm (top_k : Nat) (caller : String → List String)
    (entry : VEntry) : VStep :=
  match entry.noun_form with
  | .str nf =>
      if nf ≠ "" then
        match entry.example_sentence.getItem with
        | .error e => (.error e, [])
        | .ok exVal =>
            let it := (get_validation_prompt_for_noun_form (jFStr exVal)
              top_k).format_prompt
            let data := caller it
            (.ok [⟨"noun_form", is_in_candidates_article_form nf data, data⟩], [it])
      else (.ok [], [])
  | _ => (.ok [], [])

/-- `Validator.validate_entry`.  Mirrors the source order: the definition
prompt's text is built from `entry["explanation_de"]` before any presence
guard runs, so a missing `explanation_de` key raises `KeyError` at once. -/
def validate_entry (top_k : Nat) (caller : String → List String)
    (entry : VEntry) : VStep :=
  match entry.explanation_de.getItem with
  | .error e => (.error e, [])
  | .ok explVal =>
      let input_text := (get_validation_prompt_for_definition (jFStr explVal)
        top_k).format_prompt
      seqStep (seqStep (seqStep (seqStep
        (vStepExplanation caller entry input_text)
        (vStepTranslation top_k caller entry))
        (vStepExample entry))
        (vStepOpposite top_k caller entry))
        (vStepNounForm top_k caller entry)

/-- The report list produced by `validate_entry` (empty when the entry's
validation raised). -/
def reportItems (r : VStep) : List ReportItem :=
  match r.1 with
  | .ok items => items
  | .error _ => []

/-! ## Generator (src/data_generator.py) and the schema coercion
(`TextNormalizer.normalize_to_bot_schema` in src/text_normalizer.py) -/

/-- A decoded model object satisfying the generation schema
(`DataGenerator.entry_schema`): all eleven keys present, `pos` one of the
enum strings, nullable fields as `Option`. -/
structure DecodedEntry where
  word : String
  pos : String
  explanation_de : String
  translation_en : String
  example_sentence : String
  opposite : Option String
  article : Option String
  level : Option String
  plural_form : Option String
  noun_form : Option String
  verb_form : Option String
deriving Repr, DecidableEq

/-- The canonical public entry shape handed to the bot: the decoded object
minus `pos`. -/
structure Entry where
  word : String
  explanation_de : String
  translation_en : String
  example_sentence : String
  opposite : Option String
  article : Option String
  level : Option String
  plural_form : Option String
  noun_form : Option String
  verb_form : Option String
deriving Repr, DecidableEq

/-- `TextNormalizer.normalize_to_bot_schema`, step by step in source order:
copy everything but `pos` into `out`; null `article`/`plural_form` unless
`pos == "noun"`; for `pos == "verb"` null `verb_form` and wrap a `noun_form`
not starting with `<` as `<die>...`; for `pos == "noun"` null `noun_form`;
otherwise null both; finally, if the word is not a substring of the example
sentence, append `" Heute will ich {word}."` to the rstripped sentence. -/
def normalize_to_bot_schema (entry : DecodedEntry) : Entry :=
  let out : Entry :=
    { word := entry.word
      explanation_de := entry.explanation_de
      translation_en := entry.translation_en
      example_sentence := entry.example_sentence
      opposite := entry.opposite
      article := entry.article
      level := entry.level
      plural_form := entry.plural_form
      noun_form := entry.noun_form
      verb_form := entry.verb_form }
  let out :=
    if entry.pos ≠ "noun" then { out with article := none, plural_form := none }
    else out
  let out :=
    if entry.pos = "verb" then
      let nf :=
        match out.noun_form with
        | some s => if pyStartsWith s ("<") then some s else some ("<die>" ++ s)
        | none => none
      { out with verb_form := none, noun_form := nf }
    else if entry.pos = "noun" then { out with noun_form := none }
    else { out with noun_form := none, verb_form := none }
  { out with
      example_sentence :=
        if pyInStr out.word out.example_sentence then out.example_sentence
        else pyRstrip out.example_sentence ++ " Heute will ich " ++ out.word ++ "." }

/-- `DataGenerator.call_openai_with_backoff`, with the transport stubbed as
`callFails k = true` iff the k-th underlying call (0-indexed) would fail.
Despite its name the source makes a single attempt inside one `try`: a
success returns at once, and any exception immediately raises a fatal
`RuntimeError` (whose handler even reads `cfg.max_retries`, an attribute
`GeneratorConfig` does not have).  Result: (outcome, attempts made, sleeps
performed). -/
def call_openai_with_backoff (callFails : Nat → Bool) :
    Except PyErr Unit × Nat × Nat :=
  if callFails 0 then (.error .runtimeError, 1, 0) else (.ok (), 1, 0)

/-- The per-word loop of `DataGenerator.__call__`: one caller invocation per
word, aborting the batch on the first failure.  Result: (batch outcome,
number of caller invocations). -/
def genLoop (caller : String → Except Unit DecodedEntry) :
    List String → Except PyErr (List Entry) × Nat
  | [] => (.ok [], 0)
  | w :: ws =>
      match caller w with
      | .error _ => (.error .runtimeError, 1)
      | .ok d =>
          match genLoop caller ws with
          | (.ok es, n) => (.ok (normalize_to_bot_schema d :: es), n + 1)
          | (.error e, n) => (.error e, n + 1)

/-- `DataGenerator.__call__` on a list input: assert the words are
duplicate-free (an `AssertionError` before any caller invocation otherwise),
generate and normalize each entry, and only then write the batch.  An `.ok`
outcome is the JSON array written to the output file; an `.error` outcome
means no file was written.  The second component counts caller invocations. -/
def dataGeneratorCall (caller : String → Except Unit DecodedEntry)
    (words : List String) : Except PyErr (List Entry) × Nat :=
  if words.Nodup then genLoop caller words
  else (.error .assertionError, 0)

/-! ## Validator.call_responses_with_backoff (src/validator.py, lines 62-99)

The loop keeps a counter `attempt` starting at 0.  Each iteration calls the
model; on success it returns, on failure it increments `attempt`, raises a
retry-exhausted error once `attempt > max_retries`, and otherwise sleeps
`base_backoff_s * 2 ** (attempt - 1) * (0.7 + 0.6 * random.random())` and
retries.  The transport is stubbed as `callFails k = true` iff the k-th call
(0-indexed) fails, and the stream of `random.random()` draws as a function
from the attempt counter to a rational in `[0, 1)`. -/

/-- Whether the call loop returned (`success`) or raised the retry-exhausted
error (`exhausted`), with the total number of calls made. -/
inductive CallOutcome where
  | success (attempts : Nat)
  | exhausted (attempts : Nat)
deriving Repr, DecidableEq

/-- `CallOutcome.isSuccess`. -/
def CallOutcome.isSuccess : CallOutcome → Bool
  | .success _ => true
  | .exhausted _ => false

/-- The duration slept before retrying after failure number `attempt`
(1-indexed, matching the incremented Python counter). -/
def backoffSleep (base : ℚ) (attempt : Nat) (draw : ℚ) : ℚ :=
  base * 2 ^ (attempt - 1) * (7 / 10 + 6 / 10 * draw)

/-- The retry loop of `call_responses_with_backoff`.  `fuel` is an upper
bound on the remaining iterations; starting from attempt 0 with fuel
`maxRetries + 1` it is never exhausted, because the loop raises once the
incremented counter exceeds `maxRetries`. -/
def backoffAux (maxRetries : Nat) (base : ℚ) (callFails : Nat → Bool)
    (draws : Nat → ℚ) : Nat → Nat → CallOutcome × List ℚ
  | attempt, 0 => (.exhausted attempt, [])
  | attempt, fuel + 1 =>
      if callFails attempt then
        let a := attempt + 1
        if maxRetries < a then (.exhausted a, [])
        else
          let d := backoffSleep base a (draws a)
          let r := backoffAux maxRetries base callFails draws a fuel
          (r.1, d :: r.2)
      else (.success (attempt + 1), [])

/-- `Validator.call_responses_with_backoff` with a stubbed transport:
returns the outcome and the list of backoff sleep durations, in order. -/
def call_responses_with_backoff (maxRetries : Nat) (base : ℚ)
    (callFails : Nat → Bool) (draws : Nat → ℚ) : CallOutcome × List ℚ :=
  backoffAux maxRetries base callFails draws 0 (maxRetries + 1)

/-- A transport stub that fails on the first `n` calls and succeeds on the
next one. -/
def failsThenOk (n : Nat) : Nat → Bool :=
  fun k => decide (k < n)

/-! ## Concrete fixtures used by the claim theorems -/

/-- The stubbed model response of the spec's end-to-end example: pos `verb`,
`noun_form` returned without the bracketed-article format. -/
def optEntry : DecodedEntry where
  word := "optimieren"
  pos := "verb"
  explanation_de := "etwas besser machen"
  translation_en := "optimize"
  example_sentence := "Wir wollen den Prozess optimieren."
  opposite := some ("verschlechtern")
  article := none
  level := some ("B2.1")
  plural_form := none
  noun_form := some ("Optimierung")
  verb_form := some ("optimiert")

/-- A validator input whose `example_sentence` is present and non-empty and
whose remaining checkable fields are empty or null. -/
def entryNoExampleReport : VEntry where
  word := JField.str ("Arbeit")
  explanation_de := JField.str ("")
  translation_en := JField.null
  example_sentence := JField.str ("Die Arbeit ruft.")
  opposite := JField.null
  noun_form := JField.null

/-- A partial validator input: the `explanation_de` key is missing from the
dict while `translation_en` and `example_sentence` are present. -/
def entryNoExplanationKey : VEntry where
  word := JField.str ("Müll")
  explanation_de := JField.absent
  translation_en := JField.str ("waste, rubbish")
  example_sentence := JField.str ("Der Müll stinkt.")
  opposite := JField.null
  noun_form := JField.str ("<die>Niederlage")

/-- A validator input with a non-empty `noun_form` whose lemma differs from
its example sentence. -/
def entryNounFormSentence : VEntry where
  word := JField.str ("verlieren")
  explanation_de := JField.str ("")
  translation_en := JField.null
  example_sentence := JField.str ("Ich mag nicht verlieren.")
  opposite := JField.null
  noun_form := JField.str ("<die>Niederlage")

/-- A caller stub returning nominalization candidates. -/
def nounFormCaller : String → List String :=
  fun _ => ["<die>Niederlage", "<der>Verlust"]

/-- A validator input with a comma-joined stored translation. -/
def entryTranslationPair : VEntry where
  word := JField.str ("Müll")
  explanation_de := JField.str ("")
  translation_en := JField.str ("waste, rubbish")
  example_sentence := JField.str ("Der Müll stinkt.")
  opposite := JField.null
  noun_form := JField.null

/-- A caller stub returning translation candidates. -/
def translationCaller : String → List String :=
  fun _ => ["garbage", "rubbish"]

/-! ## Helper lemmas -/

/-- Closed form of the retry loop against a stub that fails on the first `n`
calls and then succeeds, for any start attempt within bounds. -/
lemma backoffAux_failsThenOk (mr n : Nat) (base : ℚ) (draws : Nat → ℚ) :
    ∀ fuel a, mr + 1 = a + fuel → a ≤ min n mr →
      backoffAux mr base (failsThenOk n) draws a fuel =
        ((if n ≤ mr then CallOutcome.success (n + 1) else CallOutcome.exhausted (mr + 1)),
          (List.range (min n mr - a)).map
            (fun j => backoffSleep base (a + j + 1) (draws (a + j + 1)))) := by
  intro fuel
  induction fuel with
  | zero =>
      intro a h1 h2
      exfalso
      omega
  | succ f ih =>
      intro a h1 h2
      by_cases hf : a < n
      · have hft : failsThenOk n a = true := by simp [failsThenOk, hf]
        by_cases hm : mr < a + 1
        · have ha : a = mr := by omega
          subst ha
          have hn : ¬ n ≤ a := by omega
          simp [backoffAux, hft, hm, hn, Nat.sub_eq_zero_of_le]
        · have h3 : a + 1 ≤ min n mr := by omega
          simp only [backoffAux, hft, if_true, hm, if_false]
          rw [ih (a + 1) (by omega) h3]
          have h4 : min n mr - a = (min n mr - (a + 1)) + 1 := by omega
          rw [h4, List.range_succ_eq_map]
          simp only [List.map_cons, List.map_map, Prod.mk.injEq, List.cons.injEq]
          refine ⟨trivial, trivial, ?_⟩
          apply List.map_congr_left
          intro j hj
          simp only [Function.comp]
          rw [show a + (j + 1) + 1 = a + 1 + j + 1 from by omega]
      · have hft : failsThenOk n a = false := by simp [failsThenOk, hf]
        have ha : a = n := by omega
        rw [ha] at hft
        have hn : n ≤ mr := by omega
        simp [backoffAux, hft, ha, hn, Nat.sub_eq_zero_of_le]

/-- Closed form of the retry loop against a stub that always fails. -/
lemma backoffAux_allFail (mr : Nat) (base : ℚ) (draws : Nat → ℚ) :
    ∀ fuel a, mr + 1 = a + fuel → a ≤ mr →
      backoffAux mr base (fun _ => true) draws a fuel =
        (CallOutcome.exhausted (mr + 1),
          (List.range (mr - a)).map
            (fun j => backoffSleep base (a + j + 1) (draws (a + j + 1)))) := by
  intro fuel
  induction fuel with
  | zero =>
      intro a h1 h2
      exfalso
      omega
  | succ f ih =>
      intro a h1 h2
      by_cases hm : mr < a + 1
      · have ha : a = mr := by omega
        subst ha
        simp [backoffAux, hm, Nat.sub_eq_zero_of_le]
      · simp only [backoffAux, if_true, hm, if_false]
        rw [ih (a + 1) (by omega) (by omega)]
        have h4 : mr - a = (mr - (a + 1)) + 1 := by omega
        rw [h4, List.range_succ_eq_map]
        simp only [List.map_cons, List.map_map, Prod.mk.injEq, List.cons.injEq]
        refine ⟨trivial, trivial, ?_⟩
        apply List.map_congr_left
        intro j hj
        simp only [Function.comp]
        rw [show a + (j + 1) + 1 = a + 1 + j + 1 from by omega]

/-! ## Claim theorems -/

/-- C1: For the schema-constrained caller (`Validator.call_responses_with_backoff`)
with retry budget `maxRetries`: for every `n`, if the underlying model call
fails `n` times and then succeeds, the call succeeds iff `n ≤ maxRetries`
and the number of backoff sleeps equals `min n maxRetries`; if the
underlying call always fails, the caller raises a retry-exhausted error
after exactly `maxRetries + 1` attempts; and the i-th sleep (before retry
attempt `i + 1`) lasts `base * 2 ^ i` times a jitter factor in
`[7/10, 13/10)`, given that each `random.random()` draw lies in `[0, 1)`. -/
theorem c1_retry_policy (maxRetries n : Nat) (base : ℚ) (draws : Nat → ℚ)
    (hdraws : ∀ k, 0 ≤ draws k ∧ draws k < 1) :
    ((call_responses_with_backoff maxRetries base (failsThenOk n) draws).1.isSuccess = true
        ↔ n ≤ maxRetries)
    ∧ (call_responses_with_backoff maxRetries base (failsThenOk n) draws).2.length
        = min n maxRetries
    ∧ (call_responses_with_backoff maxRetries base (fun _ => true) draws).1
        = CallOutcome.exhausted (maxRetries + 1)
    ∧ ∀ i : Fin (call_responses_with_backoff maxRetries base (failsThenOk n) draws).2.length,
        ∃ factor : ℚ,
          (call_responses_with_backoff maxRetries base (failsThenOk n) draws).2.get i
              = base * 2 ^ (i : Nat) * factor
            ∧ 7 / 10 ≤ factor ∧ factor < 13 / 10 := by
  have hchar := backoffAux_failsThenOk maxRetries n base draws (maxRetries + 1) 0
    (by omega) (by omega)
  have hall := backoffAux_allFail maxRetries base draws (maxRetries + 1) 0
    (by omega) (by omega)
  unfold call_responses_with_backoff
  rw [hchar, hall]
  refine ⟨?_, ?_, rfl, ?_⟩
  · by_cases h : n ≤ maxRetries <;> simp [h, CallOutcome.isSuccess]
  · simp
  · intro i
    refine ⟨7 / 10 + 6 / 10 * draws ((i : Nat) + 1), ?_, ?_, ?_⟩
    · simp [backoffSleep, List.get_eq_getElem]
    · have := (hdraws ((i : Nat) + 1)).1
      linarith
    · have := (hdraws ((i : Nat) + 1)).2
      linarith

/-- C1 witness: the retry-policy theorem instantiated at `maxRetries = 3`,
`n = 2`, `base = 4/5` and the constant jitter draw `1/2`. -/
theorem c1_retry_policy_witness :
    ((call_responses_with_backoff 3 (4 / 5) (failsThenOk 2) (fun _ => 1 / 2)).1.isSuccess = true
        ↔ 2 ≤ 3)
    ∧ (call_responses_with_backoff 3 (4 / 5) (failsThenOk 2) (fun _ => 1 / 2)).2.length
        = min 2 3
    ∧ (call_responses_with_backoff 3 (4 / 5) (fun _ => true) (fun _ => 1 / 2)).1
        = CallOutcome.exhausted (3 + 1)
    ∧ ∀ i : Fin (call_responses_with_backoff 3 (4 / 5) (failsThenOk 2) (fun _ => 1 / 2)).2.length,
        ∃ factor : ℚ,
          (call_responses_with_backoff 3 (4 / 5) (failsThenOk 2) (fun _ => 1 / 2)).2.get i
              = (4 / 5) * 2 ^ (i : Nat) * factor
            ∧ 7 / 10 ≤ factor ∧ factor < 13 / 10 :=
  c1_retry_policy 3 2 (4 / 5) (fun _ => 1 / 2) (fun _ => by norm_num)

/-- C2: `normalize_to_bot_schema` drops `pos` (the output type has no `pos`
field), nulls `article` and `plural_form` unless `pos == "noun"`, nulls
`noun_form` unless `pos == "verb"` (wrapping a `noun_form` lacking the
bracketed-article format with the default article `die`), and nulls
`verb_form` unless `pos == "noun"`; in particular, the decoded object with
`pos == "verb"` and `noun_form == "Optimierung"` yields an entry with
`noun_form == "<die>Optimierung"` and `verb_form == null`. -/
theorem c2_schema_coercion (e : DecodedEntry) :
    ((normalize_to_bot_schema e).article = if e.pos = "noun" then e.article else none)
    ∧ ((normalize_to_bot_schema e).plural_form =
        if e.pos = "noun" then e.plural_form else none)
    ∧ ((normalize_to_bot_schema e).noun_form =
        if e.pos = "verb" then
          match e.noun_form with
          | some s => if pyStartsWith s ("<") then some s else some ("<die>" ++ s)
          | none => none
        else none)
    ∧ ((normalize_to_bot_schema e).verb_form = if e.pos = "noun" then e.verb_form else none)
    ∧ (normalize_to_bot_schema optEntry).noun_form = some ("<die>Optimierung")
    ∧ (normalize_to_bot_schema optEntry).verb_form = none := by
  refine ⟨?_, ?_, ?_, ?_, by decide, by decide⟩ <;>
    (by_cases h1 : e.pos = "noun" <;> by_cases h2 : e.pos = "verb")
  all_goals first
    | exact absurd (h1.symm.trans h2) (by decide)
    | simp [normalize_to_bot_schema, h1, h2]

/-- C3: For every decoded model object, the `word` of the normalized entry
is a literal substring of its `example_sentence`: if the raw sentence does
not contain the lemma, the deterministic fallback clause
`" Heute will ich {word}."` is appended. -/
theorem c3_word_in_example_sentence (e : DecodedEntry) :
    (normalize_to_bot_schema e).word.data <:+:
      (normalize_to_bot_schema e).example_sentence.data := by
  have hword : (normalize_to_bot_schema e).word = e.word := by
    by_cases h1 : e.pos = "noun" <;> by_cases h2 : e.pos = "verb"
    all_goals first
      | exact absurd (h1.symm.trans h2) (by decide)
      | simp [normalize_to_bot_schema, h1, h2]
  have hsent : (normalize_to_bot_schema e).example_sentence =
      if pyInStr e.word e.example_sentence then e.example_sentence
      else pyRstrip e.example_sentence ++ " Heute will ich " ++ e.word ++ "." := by
    by_cases h1 : e.pos = "noun" <;> by_cases h2 : e.pos = "verb"
    all_goals first
      | exact absurd (h1.symm.trans h2) (by decide)
      | simp [normalize_to_bot_schema, h1, h2]
  rw [hword, hsent]
  by_cases hc : pyInStr e.word e.example_sentence
  · rw [if_pos hc]
    simpa [pyInStr] using hc
  · rw [if_neg hc]
    simp only [String.data_append]
    exact ⟨(pyRstrip e.example_sentence).data ++ (" Heute will ich ").data, (".").data, by simp⟩

/-- Report items survive `seqStep` sequencing: a predicate holding on both
sides holds on the combination. -/
lemma seqStep_all (p : ReportItem → Bool) (acc step : VStep)
    (hacc : (reportItems acc).all p = true) (hstep : (reportItems step).all p = true) :
    (reportItems (seqStep acc step)).all p = true := by
  rcases acc with ⟨racc | racc, tracc⟩
  · simp [seqStep, reportItems]
  · rcases step with ⟨rstep | rstep, trstep⟩
    · simp [seqStep, reportItems]
    · simp only [reportItems] at hacc hstep
      simp [seqStep, reportItems, List.all_append, hacc, hstep]

/-- Every item the `explanation_de` branch reports carries that field name. -/
lemma vStepExplanation_field (caller : String → List String) (entry : VEntry)
    (it : String) :
    (reportItems (vStepExplanation caller entry it)).all
      (fun r => r.field == "explanation_de") = true := by
  by_cases h : entry.explanation_de.truthy
  · rcases hw : normWordArg entry.word.get with e | w <;>
      simp [vStepExplanation, h, hw, reportItems]
  · simp [vStepExplanation, h, reportItems]

/-- Every item the `translation_en` branch reports carries that field name. -/
lemma vStepTranslation_field (top_k : Nat) (caller : String → List String)
    (entry : VEntry) :
    (reportItems (vStepTranslation top_k caller entry)).all
      (fun r => r.field == "translation_en") = true := by
  cases ht : entry.translation_en with
  | str s =>
      by_cases hs : s = "" <;> simp [vStepTranslation, ht, hs, reportItems]
  | absent => simp [vStepTranslation, ht, reportItems]
  | null => simp [vStepTranslation, ht, reportItems]

/-- The `example_sentence` branch never reports an item. -/
lemma vStepExample_items (entry : VEntry) :
    reportItems (vStepExample entry) = [] := by
  simp [vStepExample, reportItems, ite_self]

/-- Every item the `opposite` branch reports carries that field name. -/
lemma vStepOpposite_field (top_k : Nat) (caller : String → List String)
    (entry : VEntry) :
    (reportItems (vStepOpposite top_k caller entry)).all
      (fun r => r.field == "opposite") = true := by
  cases ho : entry.opposite with
  | str o =>
      by_cases hs : o = "" <;> simp [vStepOpposite, ho, hs, reportItems]
  | absent => simp [vStepOpposite, ho, reportItems]
  | null => simp [vStepOpposite, ho, reportItems]

/-- Every item the `noun_form` branch reports carries that field name. -/
lemma vStepNounForm_field (top_k : Nat) (caller : String → List String)
    (entry : VEntry) :
    (reportItems (vStepNounForm top_k caller entry)).all
      (fun r => r.field == "noun_form") = true := by
  cases hn : entry.noun_form with
  | str nf =>
      by_cases hs : nf = ""
      · simp [vStepNounForm, hn, hs, reportItems]
      · rcases hex : entry.example_sentence.getItem with e | exVal <;>
          simp [vStepNounForm, hn, hs, hex, reportItems]
  | absent => simp [vStepNounForm, hn, reportItems]
  | null => simp [vStepNounForm, hn, reportItems]

/-- C4 (code evidence): despite its name and despite the spec's §4.2 backoff
policy, `DataGenerator.call_openai_with_backoff` performs no retry: against
a transport stub that fails once and then would succeed (so with
`maxRetries = 3 > 0` the claim requires a retried success), the call raises
a fatal `RuntimeError` after exactly one attempt and zero backoff sleeps;
only an immediately-succeeding stub returns.  The handler even formats
`cfg.max_retries`, an attribute `GeneratorConfig` does not define. -/
theorem c4_generator_single_attempt :
    call_openai_with_backoff (failsThenOk 1) = (.error .runtimeError, 1, 0)
    ∧ call_openai_with_backoff (failsThenOk 0) = (.ok (), 1, 0) := by
  decide

/-- C5 counterexample: an entry with a present, non-empty `example_sentence`
for which `validate_entry` returns a report with no item at all — in
particular no always-pass item for the `example_sentence` field, refuting
the claim that the report marks that field present-but-unchecked. -/
theorem c5_counterexample :
    entryNoExampleReport.example_sentence.truthy = true
    ∧ (validate_entry 3 (fun _ => []) entryNoExampleReport).1 = .ok [] := by
  decide

/-- C5 (amended): for every entry and caller, the report produced by
`validate_entry` contains no item for the `example_sentence` field: the
branch guarding that field sets its local verdict to true but its reporting
code is dead (`if False:`), so the field is silently omitted from the
report rather than reported as passing. -/
theorem c5_amended_no_example_item (top_k : Nat) (caller : String → List String)
    (entry : VEntry) :
    (reportItems (validate_entry top_k caller entry)).all
      (fun r => r.field != "example_sentence") = true := by
  have himp : ∀ (s : String) (st : VStep),
      (reportItems st).all (fun r => r.field == s) = true →
      s ≠ "example_sentence" →
      (reportItems st).all (fun r => r.field != "example_sentence") = true := by
    intro s st hall hne
    rw [List.all_eq_true] at hall ⊢
    intro r hr
    have hcur := hall r hr
    simp only [beq_iff_eq] at hcur
    simp [hcur, bne_iff_ne, hne]
  unfold validate_entry
  split
  · simp [reportItems]
  · apply seqStep_all
    apply seqStep_all
    apply seqStep_all
    apply seqStep_all
    · exact himp _ _ (vStepExplanation_field ..) (by decide)
    · exact himp _ _ (vStepTranslation_field ..) (by decide)
    · rw [vStepExample_items]
      simp
    · exact himp _ _ (vStepOpposite_field ..) (by decide)
    · exact himp _ _ (vStepNounForm_field ..) (by decide)

/-- C6 (code evidence): a partial entry whose `explanation_de` key is absent
(but with `translation_en`, `example_sentence` and `noun_form` present)
makes `validate_entry` raise `KeyError` immediately — before any model call
(empty call trace) and with no report for the remaining fields — because
the definition prompt is built from `entry["explanation_de"]` before the
presence guard, contradicting the claim that absent fields are skipped and
the remaining fields are validated normally. -/
theorem c6_absent_explanation_keyerror :
    validate_entry 3 (fun _ => ["Abfall"]) entryNoExplanationKey
      = (.error .keyError, []) := by
  decide

set_option maxRecDepth 8192 in
/-- C7 counterexample: for an entry whose lemma is `verlieren` and whose
example sentence is `Ich mag nicht verlieren.`, the single model call made
for the `noun_form` field is the nominalization prompt whose input payload
is the example sentence — not the prompt built from the lemma, which
renders to a different text — refuting the claim that the stored word is
the prompt's input payload. -/
theorem c7_counterexample :
    (validate_entry 3 nounFormCaller entryNounFormSentence).2 =
      [(get_validation_prompt_for_noun_form ("Ich mag nicht verlieren.") 3).format_prompt]
    ∧ (get_validation_prompt_for_noun_form ("Ich mag nicht verlieren.") 3).input_data
        = "Ich mag nicht verlieren."
    ∧ (get_validation_prompt_for_noun_form ("verlieren") 3).format_prompt
        ≠ (get_validation_prompt_for_noun_form ("Ich mag nicht verlieren.") 3).format_prompt
    ∧ (validate_entry 3 nounFormCaller entryNounFormSentence).1 =
        .ok [⟨"noun_form", true, ["<die>Niederlage", "<der>Verlust"]⟩] := by
  decide

/-- C7 (amended): for every entry with a non-empty `noun_form` and a
present `example_sentence`, the Validator builds the verb-lemma to
nominalization prompt with the entry's example sentence as the prompt's
input payload, and the field passes iff the article-aware normalized form
of the stored `noun_form` appears among the article-aware normalized
returned candidates. -/
theorem c7_amended_payload (top_k : Nat) (caller : String → List String)
    (entry : VEntry) (nf ex : String)
    (hnf : entry.noun_form = .str nf) (hne : nf ≠ "")
    (hex : entry.example_sentence = .str ex) :
    vStepNounForm top_k caller entry =
      (.ok [⟨"noun_form",
          is_in_candidates_article_form nf
            (caller ((get_validation_prompt_for_noun_form ex top_k).format_prompt)),
          caller ((get_validation_prompt_for_noun_form ex top_k).format_prompt)⟩],
        [(get_validation_prompt_for_noun_form ex top_k).format_prompt])
    ∧ (get_validation_prompt_for_noun_form ex top_k).input_data = ex
    ∧ (is_in_candidates_article_form nf
          (caller ((get_validation_prompt_for_noun_form ex top_k).format_prompt)) = true
        ↔ norm_article_form nf ∈
            (caller ((get_validation_prompt_for_noun_form ex top_k).format_prompt)).map
              norm_article_form) := by
  refine ⟨?_, rfl, ?_⟩
  · simp [vStepNounForm, hnf, hne, hex, JField.getItem, jFStr]
  · simp [is_in_candidates_article_form, List.any_eq_true, List.mem_map]

/-- C7 witness: the amended theorem instantiated at the concrete entry with
lemma `verlieren`, noun form `<die>Niederlage` and example sentence
`Ich mag nicht verlieren.`. -/
theorem c7_amended_payload_witness :
    entryNounFormSentence.noun_form = JField.str ("<die>Niederlage")
    ∧ ("<die>Niederlage" : String) ≠ ""
    ∧ entryNounFormSentence.example_sentence = JField.str ("Ich mag nicht verlieren.")
    ∧ (vStepNounForm 3 nounFormCaller entryNounFormSentence =
        (.ok [⟨"noun_form",
            is_in_candidates_article_form ("<die>Niederlage")
              (nounFormCaller ((get_validation_prompt_for_noun_form
                ("Ich mag nicht verlieren.") 3).format_prompt)),
            nounFormCaller ((get_validation_prompt_for_noun_form
              ("Ich mag nicht verlieren.") 3).format_prompt)⟩],
          [(get_validation_prompt_for_noun_form ("Ich mag nicht verlieren.") 3).format_prompt])
      ∧ (get_validation_prompt_for_noun_form ("Ich mag nicht verlieren.") 3).input_data
          = "Ich mag nicht verlieren."
      ∧ (is_in_candidates_article_form ("<die>Niederlage")
            (nounFormCaller ((get_validation_prompt_for_noun_form
              ("Ich mag nicht verlieren.") 3).format_prompt)) = true
          ↔ norm_article_form ("<die>Niederlage") ∈
              (nounFormCaller ((get_validation_prompt_for_noun_form
                ("Ich mag nicht verlieren.") 3).format_prompt)).map
                norm_article_form)) :=
  ⟨rfl, by decide, rfl,
    c7_amended_payload 3 nounFormCaller entryNounFormSentence ("<die>Niederlage")
      ("Ich mag nicht verlieren.") rfl (by decide) rfl⟩

/-- C8: for every batch input list containing a duplicate lemma, the
Generator rejects the batch with a duplicate-input error before any network
call — zero invocations of the injected caller — and, since only an `.ok`
batch is written, no output file is produced. -/
theorem c8_duplicate_rejected (caller : String → Except Unit DecodedEntry)
    (words : List String) (hdup : ¬ words.Nodup) :
    dataGeneratorCall caller words = (.error .assertionError, 0) := by
  simp [dataGeneratorCall, hdup]

/-- C8 witness: the duplicate batch `["Arbeit", "Arbeit"]` is rejected with
zero caller invocations. -/
theorem c8_duplicate_rejected_witness :
    ¬ (["Arbeit", "Arbeit"] : List String).Nodup
    ∧ dataGeneratorCall (fun _ => .error ()) ["Arbeit", "Arbeit"]
        = (.error .assertionError, 0) :=
  ⟨by decide, c8_duplicate_rejected (fun _ => .error ()) ["Arbeit", "Arbeit"] (by decide)⟩

/-- C9: the `translation_en` check splits the stored value on commas,
strips and lower-cases each token (and each candidate), and passes iff some
token appears among the candidates; in particular `waste, rubbish` passes
against `["garbage", "rubbish"]` and fails against `["junk", "litter"]`. -/
theorem c9_translation_check (top_k : Nat) (caller : String → List String)
    (entry : VEntry) (s : String)
    (hs : entry.translation_en = .str s) (hne : s ≠ "") :
    vStepTranslation top_k caller entry =
      (.ok [⟨"translation_en",
          translation_pass s
            (caller ((get_validation_prompt_for_translations (jFStr entry.word.get)
              top_k).format_prompt)),
          caller ((get_validation_prompt_for_translations (jFStr entry.word.get)
            top_k).format_prompt)⟩],
        [(get_validation_prompt_for_translations (jFStr entry.word.get) top_k).format_prompt])
    ∧ (∀ cands, translation_pass s cands = true ↔
        ∃ tok ∈ (pySplit ',' s.data).map (fun t => pyLower (pyStripList t)),
          tok ∈ cands.map (fun c => pyLower (pyStripList c.data)))
    ∧ translation_pass ("waste, rubbish") ["garbage", "rubbish"] = true
    ∧ translation_pass ("waste, rubbish") ["junk", "litter"] = false := by
  refine ⟨?_, ?_, by decide, by decide⟩
  · simp [vStepTranslation, hs, hne]
  · intro cands
    simp [translation_pass, List.any_eq_true]

/-- C9 witness: the translation-check theorem instantiated at the concrete
entry storing `waste, rubbish` with candidates `["garbage", "rubbish"]`. -/
theorem c9_translation_check_witness :
    entryTranslationPair.translation_en = JField.str ("waste, rubbish")
    ∧ ("waste, rubbish" : String) ≠ ""
    ∧ (vStepTranslation 3 translationCaller entryTranslationPair =
        (.ok [⟨"translation_en",
            translation_pass ("waste, rubbish")
              (translationCaller ((get_validation_prompt_for_translations
                (jFStr entryTranslationPair.word.get) 3).format_prompt)),
            translationCaller ((get_validation_prompt_for_translations
              (jFStr entryTranslationPair.word.get) 3).format_prompt)⟩],
          [(get_validation_prompt_for_translations
            (jFStr entryTranslationPair.word.get) 3).format_prompt])
      ∧ (∀ cands, translation_pass ("waste, rubbish") cands = true ↔
          ∃ tok ∈ (pySplit ',' ("waste, rubbish").data).map (fun t => pyLower (pyStripList t)),
            tok ∈ cands.map (fun c => pyLower (pyStripList c.data)))
      ∧ translation_pass ("waste, rubbish") ["garbage", "rubbish"] = true
      ∧ translation_pass ("waste, rubbish") ["junk", "litter"] = false) :=
  ⟨rfl, by decide,
    c9_translation_check 3 translationCaller entryTranslationPair ("waste, rubbish")
      rfl (by decide)⟩

/-- C10: the TextNormalizer comparison functions identify notation variants
while preserving article distinctions: `norm_article_form` equates
`<die>Arbeit` with `<die>arbeit` but distinguishes `<der>Arbeit` from
`<die>Arbeit`; `norm_de_word` equates `auf|hören` with `aufhören`; and
`norm_de_reflexive_verb` of `sich erinnern` equals `norm_de_word` of
`erinnern`. -/
theorem c10_normalizer_facts :
    norm_article_form ("<die>Arbeit") = norm_article_form ("<die>arbeit")
    ∧ norm_article_form ("<der>Arbeit") ≠ norm_article_form ("<die>Arbeit")
    ∧ norm_de_word ("auf|hören") = norm_de_word ("aufhören")
    ∧ norm_de_reflexive_verb ("sich erinnern") = norm_de_word ("erinnern") := by
  decide

end GermanTutor
